import Mathlib

/-!
Verification of the response-normalization routine (`parse_ai_response`) and
the request orchestration flow (`home`) of the Code_Reviewer repository
(src/reviewer/views.py), shallowly embedded in Lean 4.

Strings are modelled by Lean `String` (a wrapper around `List Char`), and the
Python string operations used by the source (`str.strip`, `str.startswith`,
slicing `s[a:-3]`, substring membership `key in s`) are embedded as explicit
char-list functions.  `json.loads` is Python standard-library code, not code
of this repository, so it is a parameter `jsonLoads : String → Except String Json`
of the embedded functions: a successful decode yields a `Json` value, a decode
failure yields the exception text `str(e)` of the raised `json.JSONDecodeError`.
Python `dict`s produced by decoding are association lists of string keys.
-/

/-- Python whitespace characters recognised by `str.strip()` (the ASCII ones;
the source is only ever applied to model output, and every claim below is
insensitive to the exact whitespace alphabet). -/
def pyIsSpace (c : Char) : Bool :=
  c == ' ' || c == '\t' || c == '\n' || c == '\r' || c == '\x0b' || c == '\x0c'

/-- `l` with its maximal whitespace prefix and suffix removed: `str.strip()`
on the underlying character list. -/
def pyStripList (l : List Char) : List Char :=
  ((l.dropWhile pyIsSpace).reverse.dropWhile pyIsSpace).reverse

/-- Python `s.strip()`. -/
def pyStrip (s : String) : String :=
  ⟨pyStripList s.data⟩

/-- Python `s.startswith(p)`. -/
def pyStartsWith (s p : String) : Bool :=
  p.data.isPrefixOf s.data

/-- Python slice `s[k:-3]`: drop the first `k` characters and the last 3.
`List.take (l.length - 3)` clamps at zero exactly as Python clamps a negative
stop index. -/
def cutFence (l : List Char) (k : Nat) : List Char :=
  (l.take (l.length - 3)).drop k

/-- Python substring test `p in s` on character lists. -/
def isSubstrOf (p : List Char) : List Char → Bool
  | [] => p.isEmpty
  | c :: t => p.isPrefixOf (c :: t) || isSubstrOf p t

/-- JSON values as decoded by `json.loads` (JSON objects become Python dicts,
modelled as association lists; number literals are modelled by integers,
which covers every number appearing in the development). -/
inductive Json where
  | null : Json
  | bool : Bool → Json
  | num : Int → Json
  | str : String → Json
  | arr : List Json → Json
  | obj : List (String × Json) → Json

/-- Python `d[k]` on a dict, as a first-match association-list lookup
(decoded dicts have unique keys, and the source only ever adds a key that is
absent, so first-match agrees with Python dict semantics). -/
def alookup : List (String × Json) → String → Option Json
  | [], _ => none
  | (a, b) :: t, k => if a = k then some b else alookup t k

/-- Python string equality `k == e` between a string and an arbitrary value,
used by list membership: only a string element can equal the string `k`. -/
def eqStrKey (k : String) : Json → Bool
  | .str s => k == s
  | _ => false

/-- Python's name for the runtime type of a value, as printed in `TypeError`
messages. -/
def pyTypeName : Json → String
  | .null => "NoneType"
  | .bool _ => "bool"
  | .num _ => "int"
  | .str _ => "str"
  | .arr _ => "list"
  | .obj _ => "dict"

/-- Python `key in parsed_data` where `parsed_data` is an arbitrary decoded
value: dict key membership, list element membership, substring test on a
string, and a `TypeError` for the non-iterable types. -/
def keyContains (j : Json) (key : String) : Except String Bool :=
  match j with
  | .obj kvs => .ok (kvs.any (fun p => p.1 == key))
  | .arr xs => .ok (xs.any (eqStrKey key))
  | .str s => .ok (isSubstrOf key.data s.data)
  | other => .error ("argument of type '" ++ pyTypeName other ++ "' is not iterable")

/-- Python `parsed_data[key] = v`: on a dict, add the (absent) key at the
end; every other type raises a `TypeError`. -/
def keyAssign (j : Json) (key : String) (v : Json) : Except String Json :=
  match j with
  | .obj kvs => .ok (.obj (kvs ++ [(key, v)]))
  | other => .error ("'" ++ pyTypeName other ++ "' object does not support item assignment")

/-- The five expected keys, in the order the source iterates over them. -/
def expectedKeys : List String :=
  ["syntax_errors", "logical_errors", "key_improvements", "fixed_code", "explanation"]

/-- `[] if "errors" in key or "improvements" in key else ""`. -/
def defaultFor (key : String) : Json :=
  if isSubstrOf "errors".data key.data || isSubstrOf "improvements".data key.data then
    .arr []
  else
    .str ""

/-- The key-filling loop of `parse_ai_response`:
`for key in expected_keys: if key not in parsed_data: parsed_data[key] = …`,
with a raised `TypeError` propagated as an `Except` error. -/
def fillLoop : List String → Json → Except String Json
  | [], j => .ok j
  | k :: ks, j =>
    match keyContains j k with
    | .error e => .error e
    | .ok true => fillLoop ks j
    | .ok false =>
      match keyAssign j k (defaultFor k) with
      | .error e => .error e
      | .ok j2 => fillLoop ks j2

/-- The cleaning phase of `parse_ai_response`: strip surrounding whitespace,
then remove a leading ```json (7 characters) or ``` (3 characters) marker
together with the final 3 characters, and strip again. -/
def cleanContent (ai_output : String) : String :=
  let content := pyStrip ai_output
  if pyStartsWith content "```json" then pyStrip ⟨cutFence content.data 7⟩
  else if pyStartsWith content "```" then pyStrip ⟨cutFence content.data 3⟩
  else content

/-- The five content fields at their empty defaults, in source order. -/
def emptyFields : List (String × Json) :=
  [("syntax_errors", .arr []), ("logical_errors", .arr []),
   ("key_improvements", .arr []), ("fixed_code", .str ""), ("explanation", .str "")]

/-- The dict returned by the `json.JSONDecodeError` handler. -/
def decodeFailDict (e : String) (ai_output : String) : Json :=
  .obj (("error", .str ("Failed to parse AI response as JSON: " ++ e)) ::
        ("raw", .str ai_output) :: emptyFields)

/-- The dict returned by the generic `except Exception` handler. -/
def unexpectedDict (e : String) (ai_output : String) : Json :=
  .obj (("error", .str ("Unexpected error: " ++ e)) ::
        ("raw", .str ai_output) :: emptyFields)

/-- `parse_ai_response` from src/reviewer/views.py, parameterised by the
external decoder `jsonLoads` (Python's `json.loads`). -/
def parse_ai_response (jsonLoads : String → Except String Json) (ai_output : String) : Json :=
  match jsonLoads (cleanContent ai_output) with
  | .error e => decodeFailDict e ai_output
  | .ok parsed =>
    match fillLoop expectedKeys parsed with
    | .ok r => r
    | .error e => unexpectedDict e ai_output

/-- Python truthiness of a decoded value, used by
`if "error" in ai_result and ai_result["error"]`. -/
def pyTruthy : Json → Bool
  | .null => false
  | .bool b => b
  | .num n => n != 0
  | .str s => s != ""
  | .arr xs => !xs.isEmpty
  | .obj kvs => !kvs.isEmpty

/-- The check `if "error" in ai_result and ai_result["error"]` applied to the
value returned by `parse_ai_response`: on a dict it inspects the `"error"`
key; on a string or list whose membership test succeeds, the subsequent
string-keyed indexing raises a `TypeError`; on the non-iterable types the
membership test itself raises. Returns the truthy error value when there is
one. -/
def errCheck (j : Json) : Except String (Option Json) :=
  match j with
  | .obj kvs =>
    match alookup kvs "error" with
    | some v => .ok (if pyTruthy v then some v else none)
    | none => .ok none
  | .str s =>
    if isSubstrOf "error".data s.data then .error "string indices must be integers"
    else .ok none
  | .arr xs =>
    if xs.any (eqStrKey "error") then .error "list indices must be integers or slices, not str"
    else .ok none
  | other => .error ("argument of type '" ++ pyTypeName other ++ "' is not iterable")

/-- The presentation context built by the `home` view: `user_code` echoes the
trimmed input, `ai_result` is the normalized record (or the fallback) when
one was attached, `error` is the top-level error value, and `debug` the
diagnostic trace attached on a transport failure. The context's `error` slot
holds the Python value assigned to it (a string in every branch the view
writes itself, but `ai_result["error"]` can be any decoded value). -/
structure Context where
  user_code : String
  ai_result : Option Json
  error : Option Json
  debug : Option String

/-- Modelled from the spec: the diagnostic trace attached for operator
visibility on a transport failure (`traceback.format_exc()` is Python
standard-library code, not code of this repository); only its presence and
that it describes the failure matter to the claims. -/
def traceback_format_exc (e : String) : String :=
  "Traceback (most recent call last): " ++ e

/-- The fallback result structure attached on an API error. -/
def fallbackDict (e : String) : Json :=
  .obj (("error", .str ("API Error: " ++ e)) ::
        ("raw", .str "Unable to get AI response.") :: emptyFields)

/-- The user-facing message for an empty submission. -/
def emptyInputMsg : String := "❌ Please enter some code to review."

/-- The user-facing message for a missing API key. -/
def misconfiguredMsg : String := "❌ API key not configured. Please check your .env file."

/-- The POST branch of the `home` view of src/reviewer/views.py.
`code` is the raw form field, `hasKey` the truthiness of `GROQ_API_KEY`,
`hasClient` whether `client` is non-`None`; `call` is the outcome of the one
external client invocation if the view reaches it (the text of the first
completion choice, or the text of the exception the invocation raised), and
`jsonLoads` the external JSON decoder. Returns the final context together
with a flag recording whether the external client was invoked. -/
def home (code : String) (hasKey : Bool) (hasClient : Bool)
    (call : Except String String) (jsonLoads : String → Except String Json) :
    Context × Bool :=
  let user_code := pyStrip code
  if user_code = "" then
    (⟨user_code, none, some (.str emptyInputMsg), none⟩, false)
  else if !hasKey || !hasClient then
    (⟨user_code, none, some (.str misconfiguredMsg), none⟩, false)
  else
    match call with
    | .error e =>
      (⟨user_code, some (fallbackDict e), some (.str ("❌ API Error: " ++ e)),
        some (traceback_format_exc e)⟩, true)
    | .ok ai_output =>
      let ai_result := parse_ai_response jsonLoads ai_output
      match errCheck ai_result with
      | .ok none => (⟨user_code, some ai_result, none, none⟩, true)
      | .ok (some v) => (⟨user_code, some ai_result, some v, none⟩, true)
      | .error e =>
        (⟨user_code, some (fallbackDict e), some (.str ("❌ API Error: " ++ e)),
          some (traceback_format_exc e)⟩, true)

/-- A value of the shape required of the three list-valued content fields:
an ordered sequence of strings. -/
def isStringArr : Json → Bool
  | .arr xs => xs.all fun j => match j with | .str _ => true | _ => false
  | _ => false

/-- A string-typed value. -/
def isStrVal : Json → Bool
  | .str _ => true
  | _ => false

/-- An object (dict) value. -/
def isObj : Json → Bool
  | .obj _ => true
  | _ => false

/-- The declared type of each expected field: a sequence of strings for the
`*_errors` / `*_improvements` keys, a string for the others. -/
def declaredTypeOk (key : String) (v : Json) : Bool :=
  if isSubstrOf "errors".data key.data || isSubstrOf "improvements".data key.data then
    isStringArr v
  else
    isStrVal v

/-- All five expected fields are present. -/
def fieldsPresent (j : Json) : Bool :=
  match j with
  | .obj kvs => expectedKeys.all fun k => (alookup kvs k).isSome
  | _ => false

/-- All five expected fields are present with values of their declared
types. -/
def fieldsPresentTyped (j : Json) : Bool :=
  match j with
  | .obj kvs => expectedKeys.all fun k =>
      match alookup kvs k with
      | some v => declaredTypeOk k v
      | none => false
  | _ => false

/-- The `raw` field of a result, when it is an object carrying a string
there. -/
def rawOf (j : Json) : Option String :=
  match j with
  | .obj kvs => match alookup kvs "raw" with
    | some (.str s) => some s
    | _ => none
  | _ => none

/-- The pure effect of the key-filling loop on a decoded dict: append each
absent expected key with its default, in loop order. -/
def objFill : List String → List (String × Json) → List (String × Json)
  | [], kvs => kvs
  | k :: ks, kvs =>
    if kvs.any (fun p => p.1 == k) then objFill ks kvs
    else objFill ks (kvs ++ [(k, defaultFor k)])

/-- A decoder modelling `json.loads` on text that is not valid JSON: every
input used with it below is rejected with the message CPython produces for
it. -/
def jsonLoadsFail : String → Except String Json := fun _ =>
  .error "Expecting value: line 1 column 1 (char 0)"

/-- A decoder modelling `json.loads` on the object text `{"fixed_code": "y"}`
(and rejecting everything else). -/
def jsonLoadsC1 : String → Except String Json := fun c =>
  if c = "\x7b\"fixed_code\": \"y\"\x7d" then .ok (.obj [("fixed_code", .str "y")])
  else .error "Expecting value: line 1 column 1 (char 0)"

/-- A decoder modelling `json.loads` on the object text `{}` (and rejecting
everything else). -/
def jsonLoadsObjEmpty : String → Except String Json := fun c =>
  if c = "\x7b\x7d" then .ok (.obj []) else .error "Expecting value: line 1 column 1 (char 0)"

/-- A decoder modelling `json.loads` on the object text `{"error": "boom"}`
(and rejecting everything else). -/
def jsonLoadsErrKey : String → Except String Json := fun c =>
  if c = "\x7b\"error\": \"boom\"\x7d" then .ok (.obj [("error", .str "boom")])
  else .error "Expecting value: line 1 column 1 (char 0)"

/-- A decoder modelling `json.loads` on the object text
`{"syntax_errors": 5}` (and rejecting everything else). -/
def jsonLoadsNum : String → Except String Json := fun c =>
  if c = "\x7b\"syntax_errors\": 5\x7d" then .ok (.obj [("syntax_errors", .num 5)])
  else .error "Expecting value: line 1 column 1 (char 0)"

/-- A decoder modelling `json.loads` on the number text `5` (and rejecting
everything else). -/
def jsonLoadsNum5 : String → Except String Json := fun c =>
  if c = "5" then .ok (.num 5) else .error "Expecting value: line 1 column 1 (char 0)"

/-- The contents of a JSON string literal containing all five expected key
names as substrings. -/
def strPayload : String :=
  "syntax_errors logical_errors key_improvements fixed_code explanation"

/-- A decoder modelling `json.loads` on the JSON string literal whose
contents are `strPayload` (and rejecting everything else). -/
def jsonLoadsStr : String → Except String Json := fun c =>
  if c = "\"" ++ strPayload ++ "\"" then .ok (.str strPayload)
  else .error "Expecting value: line 1 column 1 (char 0)"

/-- The backtick character of the fence markers. -/
def fenceChar : Char := "`".data.headD ' '

/-! ### Helper lemmas about the embedded Python string operations -/

theorem isPrefixOf_append_self (p rest : List Char) : p.isPrefixOf (p ++ rest) = true := by
  induction p with
  | nil => simp [List.isPrefixOf]
  | cons a p ih => simp [List.isPrefixOf, ih]

theorem isPrefixOf_append_cancel (P Q R : List Char) :
    (P ++ Q).isPrefixOf (P ++ R) = Q.isPrefixOf R := by
  induction P with
  | nil => rfl
  | cons a P ih => simp [List.isPrefixOf, ih]

theorem isPrefixOf_of_append (p q l : List Char) (h : (p ++ q).isPrefixOf l = true) :
    p.isPrefixOf l = true := by
  induction p generalizing l with
  | nil => simp [List.isPrefixOf]
  | cons a p ih =>
    cases l with
    | nil => exact absurd h (by simp [List.isPrefixOf])
    | cons b l =>
      simp only [List.cons_append, List.isPrefixOf, Bool.and_eq_true] at h ⊢
      exact ⟨h.1, ih l h.2⟩

theorem isSubstrOf_append_left (l p : List Char) : isSubstrOf l (p ++ l) = true := by
  induction p with
  | nil =>
    cases l with
    | nil => rfl
    | cons c t =>
      simp only [List.nil_append, isSubstrOf]
      have h := isPrefixOf_append_self (c :: t) []
      rw [List.append_nil] at h
      simp [h]
  | cons a p ih => simp [isSubstrOf, ih]

theorem dropWhile_append_all (w l : List Char) (hw : w.all pyIsSpace = true) :
    (w ++ l).dropWhile pyIsSpace = l.dropWhile pyIsSpace := by
  induction w with
  | nil => rfl
  | cons a w ih =>
    simp only [List.all_cons, Bool.and_eq_true] at hw
    simp [List.dropWhile_cons, hw.1, ih hw.2]

theorem pyStripList_pad (w1 w2 x : List Char)
    (h1 : w1.all pyIsSpace = true) (h2 : w2.all pyIsSpace = true) :
    pyStripList (w1 ++ x ++ w2) = pyStripList x := by
  unfold pyStripList
  rw [List.append_assoc, dropWhile_append_all w1 (x ++ w2) h1]
  rw [List.dropWhile_append]
  by_cases hx : (x.dropWhile pyIsSpace).isEmpty = true
  · rw [if_pos hx]
    have hw2 : w2.dropWhile pyIsSpace = [] := by
      have := dropWhile_append_all w2 [] h2
      simpa using this
    rw [hw2]
    rw [List.isEmpty_iff] at hx
    rw [hx]
  · rw [if_neg hx]
    rw [List.reverse_append, dropWhile_append_all w2.reverse _ (by simpa using h2)]

theorem pyStripList_of_ends (a b : Char) (l : List Char)
    (ha : pyIsSpace a = false) (hb : pyIsSpace b = false) :
    pyStripList (a :: (l ++ [b])) = a :: (l ++ [b]) := by
  unfold pyStripList
  rw [List.dropWhile_cons, if_neg (by simp [ha])]
  have hrev : (a :: (l ++ [b])).reverse = b :: (l.reverse ++ [a]) := by
    simp
  rw [hrev, List.dropWhile_cons, if_neg (by simp [hb]), ← hrev, List.reverse_reverse]

theorem fillLoop_obj (ks : List String) (kvs : List (String × Json)) :
    fillLoop ks (.obj kvs) = .ok (.obj (objFill ks kvs)) := by
  induction ks generalizing kvs with
  | nil => rfl
  | cons k ks ih =>
    simp only [fillLoop, keyContains, objFill]
    by_cases h : kvs.any (fun p => p.1 == k) = true
    · simp [h, ih]
    · rw [Bool.not_eq_true] at h
      simp [h, keyAssign, ih]

theorem any_key_eq_isSome (kvs : List (String × Json)) (k : String) :
    kvs.any (fun p => p.1 == k) = (alookup kvs k).isSome := by
  induction kvs with
  | nil => rfl
  | cons p t ih =>
    obtain ⟨a, b⟩ := p
    simp only [List.any_cons, alookup]
    by_cases h : a = k
    · simp [h]
    · simp [h, ih, beq_iff_eq]

theorem alookup_append (l1 l2 : List (String × Json)) (k : String) :
    alookup (l1 ++ l2) k =
      match alookup l1 k with
      | some v => some v
      | none => alookup l2 k := by
  induction l1 with
  | nil => rfl
  | cons p t ih =>
    obtain ⟨a, b⟩ := p
    simp only [List.cons_append, alookup]
    by_cases h : a = k
    · simp [h]
    · simp [h, ih]

theorem objFill_preserves (ks : List String) (kvs : List (String × Json)) (k : String)
    (v : Json) (h : alookup kvs k = some v) :
    alookup (objFill ks kvs) k = some v := by
  induction ks generalizing kvs with
  | nil => exact h
  | cons k2 ks ih =>
    simp only [objFill]
    by_cases hc : kvs.any (fun p => p.1 == k2) = true
    · rw [if_pos hc]
      exact ih kvs h
    · rw [if_neg hc]
      apply ih
      rw [alookup_append, h]

theorem objFill_absent (ks : List String) (kvs : List (String × Json)) (k : String)
    (hk : k ∈ ks) (h : alookup kvs k = none) :
    alookup (objFill ks kvs) k = some (defaultFor k) := by
  induction ks generalizing kvs with
  | nil => exact absurd hk (List.not_mem_nil k)
  | cons k2 ks ih =>
    simp only [objFill]
    by_cases he : k2 = k
    · subst he
      rw [if_neg (by rw [any_key_eq_isSome, h]; simp)]
      apply objFill_preserves
      rw [alookup_append, h]
      simp [alookup]
    · have hk2 : k ∈ ks := by
        cases hk with
        | head => exact absurd rfl he
        | tail _ h2 => exact h2
      by_cases hc : kvs.any (fun p => p.1 == k2) = true
      · rw [if_pos hc]
        exact ih kvs hk2 h
      · rw [if_neg hc]
        apply ih _ hk2
        rw [alookup_append, h]
        simp [alookup, he]

theorem objFill_notin (ks : List String) (kvs : List (String × Json)) (k : String)
    (hk : k ∉ ks) :
    alookup (objFill ks kvs) k = alookup kvs k := by
  induction ks generalizing kvs with
  | nil => rfl
  | cons k2 ks ih =>
    have hne : k2 ≠ k := fun he => hk (he ▸ List.mem_cons_self k2 ks)
    have hk2 : k ∉ ks := fun h2 => hk (List.mem_cons_of_mem k2 h2)
    simp only [objFill]
    by_cases hc : kvs.any (fun p => p.1 == k2) = true
    · rw [if_pos hc]
      exact ih kvs hk2
    · rw [if_neg hc]
      rw [ih _ hk2, alookup_append]
      simp [alookup, hne]
      cases alookup kvs k <;> simp

theorem fillLoop_str_all (ks : List String) (t : String)
    (h : ks.all (fun k => isSubstrOf k.data t.data) = true) :
    fillLoop ks (.str t) = .ok (.str t) := by
  induction ks with
  | nil => rfl
  | cons k ks ih =>
    simp only [List.all_cons, Bool.and_eq_true] at h
    simp only [fillLoop, keyContains, h.1]
    exact ih h.2

theorem cutFence_append (A t : List Char) :
    cutFence (A ++ t) A.length = t.take (t.length - 3) := by
  unfold cutFence
  rcases le_or_lt 3 t.length with h3 | h3
  · have hlen : (A ++ t).length - 3 = A.length + (t.length - 3) := by
      simp only [List.length_append]
      omega
    rw [hlen, List.take_append]
    exact List.drop_left A _
  · have hnil : t.take (t.length - 3) = [] := by
      have : t.length - 3 = 0 := by omega
      simp [this]
    have hlen : (A ++ t).length - 3 ≤ A.length := by
      simp only [List.length_append]
      omega
    rw [hnil]
    apply List.eq_nil_of_length_eq_zero
    rw [List.length_drop, List.length_take]
    simp only [List.length_append]
    omega

theorem stringEta (s : String) : String.mk s.data = s := by
  cases s
  rfl

theorem cutFence_append7 (t : List Char) :
    cutFence ("```json".data ++ t) 7 = t.take (t.length - 3) := by
  have h := cutFence_append "```json".data t
  rw [show ("```json".data).length = 7 from rfl] at h
  exact h

theorem cutFence_append3 (t : List Char) :
    cutFence ("```".data ++ t) 3 = t.take (t.length - 3) := by
  have h := cutFence_append "```".data t
  rw [show ("```".data).length = 3 from rfl] at h
  exact h

theorem append_ne_empty_left (p e : String) (hp : p.data ≠ []) : p ++ e ≠ "" := by
  intro h
  have h2 := congrArg String.data h
  rw [String.data_append] at h2
  exact hp (List.append_eq_nil.mp h2).1

theorem cleanContent_tagged (x : String) (t : List Char)
    (hx : (pyStrip x).data = "```json".data ++ t) :
    cleanContent x = pyStrip ⟨t.take (t.length - 3)⟩ := by
  have hp : pyStartsWith (pyStrip x) "```json" = true := by
    unfold pyStartsWith
    rw [hx]
    exact isPrefixOf_append_self _ _
  simp only [cleanContent]
  rw [hp, hx, cutFence_append7]
  simp

theorem cleanContent_untagged (x : String) (u : List Char)
    (hx : (pyStrip x).data = "```".data ++ u)
    (hnp : pyStartsWith (pyStrip x) "```json" = false) :
    cleanContent x = pyStrip ⟨u.take (u.length - 3)⟩ := by
  have hp : pyStartsWith (pyStrip x) "```" = true := by
    unfold pyStartsWith
    rw [hx]
    exact isPrefixOf_append_self _ _
  simp only [cleanContent]
  rw [hnp, hp, hx, cutFence_append3]
  simp

/-! ### Claims about the Response Normalizer -/

/-- C1: for every input string whose cleaned content decodes to a JSON
object, `parse_ai_response` returns that object with each absent expected
key filled in — an empty sequence for the keys whose name contains "errors"
or "improvements", an empty string for the other keys — and every key
present in the decoded object is returned unchanged. -/
theorem C1_missing_keys_filled (jsonLoads : String → Except String Json) (s : String)
    (kvs : List (String × Json))
    (h : jsonLoads (cleanContent s) = .ok (.obj kvs)) :
    parse_ai_response jsonLoads s = .obj (objFill expectedKeys kvs) ∧
    (∀ k v, alookup kvs k = some v → alookup (objFill expectedKeys kvs) k = some v) ∧
    (∀ k, k ∈ expectedKeys → alookup kvs k = none →
      alookup (objFill expectedKeys kvs) k = some (defaultFor k)) ∧
    defaultFor "syntax_errors" = .arr [] ∧
    defaultFor "logical_errors" = .arr [] ∧
    defaultFor "key_improvements" = .arr [] ∧
    defaultFor "fixed_code" = .str "" ∧
    defaultFor "explanation" = .str "" := by
  refine ⟨?_, ?_, ?_, rfl, rfl, rfl, rfl, rfl⟩
  · unfold parse_ai_response
    simp only [h, fillLoop_obj]
  · intro k v hv
    exact objFill_preserves _ _ _ _ hv
  · intro k hk hn
    exact objFill_absent _ _ _ hk hn

/-- C1 witness: `{"fixed_code": "y"}` is returned with `fixed_code`
untouched and the four absent keys filled with their defaults. -/
theorem C1_missing_keys_filled_witness :
    parse_ai_response jsonLoadsC1 "\x7b\"fixed_code\": \"y\"\x7d" =
      .obj [("fixed_code", .str "y"), ("syntax_errors", .arr []),
            ("logical_errors", .arr []), ("key_improvements", .arr []),
            ("explanation", .str "")] :=
  (C1_missing_keys_filled jsonLoadsC1 "\x7b\"fixed_code\": \"y\"\x7d"
    [("fixed_code", .str "y")] rfl).1

/-- C3 (amended): on a decode failure `parse_ai_response` returns the error
record whose `error` message is non-empty and embeds the decode failure
reason, whose five content fields are at their empty defaults, and whose
`raw` field holds the original input exactly as given — not trimmed. -/
theorem C3_decode_failure (jsonLoads : String → Except String Json) (s e : String)
    (h : jsonLoads (cleanContent s) = .error e) :
    parse_ai_response jsonLoads s = decodeFailDict e s ∧
    decodeFailDict e s =
      .obj (("error", .str ("Failed to parse AI response as JSON: " ++ e)) ::
            ("raw", .str s) :: emptyFields) ∧
    ("Failed to parse AI response as JSON: " ++ e) ≠ "" ∧
    isSubstrOf e.data ("Failed to parse AI response as JSON: " ++ e).data = true := by
  refine ⟨?_, rfl, ?_, ?_⟩
  · unfold parse_ai_response
    simp only [h]
  · exact append_ne_empty_left _ _ (by decide)
  · rw [String.data_append]
    exact isSubstrOf_append_left _ _

/-- C3 witness: the non-JSON input `" x"` produces the decode-failure record
with `raw` holding `" x"`. -/
theorem C3_decode_failure_witness :
    parse_ai_response jsonLoadsFail " x" =
      decodeFailDict "Expecting value: line 1 column 1 (char 0)" " x" :=
  (C3_decode_failure jsonLoadsFail " x" "Expecting value: line 1 column 1 (char 0)" rfl).1

/-- C3 counterexample: for the whitespace-led non-JSON input `" x"` the
returned `raw` field is the untrimmed original `" x"`, not the trimmed
text `"x"` the claim requires. -/
theorem C3_raw_untrimmed_counterexample :
    rawOf (parse_ai_response jsonLoadsFail " x") = some " x" ∧
    pyStrip " x" = "x" ∧ (" x" : String) ≠ "x" :=
  ⟨rfl, rfl, by decide⟩

/-- C4 (amended): on a successful object decode the filling loop never adds
an `error` or `raw` field: the returned record carries exactly the `error`
and `raw` entries (if any) of the decoded object itself. -/
theorem C4_error_passthrough (jsonLoads : String → Except String Json) (s : String)
    (kvs : List (String × Json))
    (h : jsonLoads (cleanContent s) = .ok (.obj kvs)) :
    parse_ai_response jsonLoads s = .obj (objFill expectedKeys kvs) ∧
    alookup (objFill expectedKeys kvs) "error" = alookup kvs "error" ∧
    alookup (objFill expectedKeys kvs) "raw" = alookup kvs "raw" := by
  refine ⟨?_, ?_, ?_⟩
  · unfold parse_ai_response
    simp only [h, fillLoop_obj]
  · exact objFill_notin _ _ _ (by decide)
  · exact objFill_notin _ _ _ (by decide)

/-- C4 witness: an object without an `error` key comes back without one. -/
theorem C4_error_passthrough_witness :
    parse_ai_response jsonLoadsObjEmpty "\x7b\x7d" = .obj emptyFields ∧
    alookup (objFill expectedKeys []) "error" = none :=
  ⟨(C4_error_passthrough jsonLoadsObjEmpty "\x7b\x7d" [] rfl).1,
   (C4_error_passthrough jsonLoadsObjEmpty "\x7b\x7d" [] rfl).2.1⟩

/-- C4 counterexample: the input `{"error": "boom"}` decodes successfully
and the filling loop succeeds, yet the returned record still contains the
`error` field — contradicting the claim that a successfully normalized
record never has one. -/
theorem C4_error_passthrough_counterexample :
    jsonLoadsErrKey (cleanContent "\x7b\"error\": \"boom\"\x7d") =
      .ok (.obj [("error", .str "boom")]) ∧
    parse_ai_response jsonLoadsErrKey "\x7b\"error\": \"boom\"\x7d" =
      .obj (("error", .str "boom") :: emptyFields) ∧
    alookup (("error", .str "boom") :: emptyFields) "error" = some (.str "boom") :=
  ⟨rfl, rfl, rfl⟩

/-- C5 (amended): `parse_ai_response` is a total function of its input;
in the decode-failure and unexpected-failure branches it constructs, the
returned record carries all five content fields at their typed empty
defaults, and on any successful object decode the returned record carries
all five content fields (fields the loop itself fills are typed defaults,
fields already present keep whatever value the decoded object had). -/
theorem C5_total_shape (jsonLoads : String → Except String Json) (s : String) :
    (∀ e, jsonLoads (cleanContent s) = .error e →
      parse_ai_response jsonLoads s = decodeFailDict e s ∧
      fieldsPresentTyped (decodeFailDict e s) = true) ∧
    (∀ kvs, jsonLoads (cleanContent s) = .ok (.obj kvs) →
      fieldsPresent (parse_ai_response jsonLoads s) = true) ∧
    (∀ j e, jsonLoads (cleanContent s) = .ok j → fillLoop expectedKeys j = .error e →
      parse_ai_response jsonLoads s = unexpectedDict e s ∧
      fieldsPresentTyped (unexpectedDict e s) = true) := by
  refine ⟨?_, ?_, ?_⟩
  · intro e h
    constructor
    · unfold parse_ai_response
      simp only [h]
    · rfl
  · intro kvs h
    unfold parse_ai_response
    simp only [h, fillLoop_obj]
    simp only [fieldsPresent]
    rw [List.all_eq_true]
    intro k hk
    cases hv : alookup kvs k with
    | some v => rw [objFill_preserves _ _ _ _ hv]; rfl
    | none => rw [objFill_absent _ _ _ hk hv]; rfl
  · intro j e hj hf
    constructor
    · unfold parse_ai_response
      simp only [hj, hf]
    · rfl

/-- C5 witness: on a decode failure all five content fields are present at
their typed defaults. -/
theorem C5_total_shape_witness :
    parse_ai_response jsonLoadsFail "x" =
      decodeFailDict "Expecting value: line 1 column 1 (char 0)" "x" ∧
    fieldsPresentTyped
      (decodeFailDict "Expecting value: line 1 column 1 (char 0)" "x") = true :=
  (C5_total_shape jsonLoadsFail "x").1 "Expecting value: line 1 column 1 (char 0)" rfl

/-- C5 counterexample: `{"syntax_errors": 5}` decodes successfully and the
returned record keeps `syntax_errors` as the number 5 — not a value of its
declared type (a sequence of strings) — so the claim that every constructed
result carries all five fields with values of the declared types is false. -/
theorem C5_total_shape_counterexample :
    jsonLoadsNum (cleanContent "\x7b\"syntax_errors\": 5\x7d") =
      .ok (.obj [("syntax_errors", .num 5)]) ∧
    parse_ai_response jsonLoadsNum "\x7b\"syntax_errors\": 5\x7d" =
      .obj [("syntax_errors", .num 5), ("logical_errors", .arr []),
            ("key_improvements", .arr []), ("fixed_code", .str ""),
            ("explanation", .str "")] ∧
    fieldsPresentTyped
      (.obj [("syntax_errors", .num 5), ("logical_errors", .arr []),
             ("key_improvements", .arr []), ("fixed_code", .str ""),
             ("explanation", .str "")]) = false :=
  ⟨rfl, rfl, rfl⟩

/-- C9 (amended): when the cleaned content decodes to a non-object JSON
value, the result depends on Python's `in` operator on that value: a
number, boolean or null raises at the membership test and yields the
"Unexpected error" record with all content fields at their defaults, while
a decoded string containing every expected key name as a substring passes
every membership test and is returned as-is — not as a failure record. -/
theorem C9_non_object (jsonLoads : String → Except String Json) (s : String) :
    (∀ n : Int, jsonLoads (cleanContent s) = .ok (.num n) →
      parse_ai_response jsonLoads s =
        unexpectedDict "argument of type 'int' is not iterable" s) ∧
    (∀ b : Bool, jsonLoads (cleanContent s) = .ok (.bool b) →
      parse_ai_response jsonLoads s =
        unexpectedDict "argument of type 'bool' is not iterable" s) ∧
    (jsonLoads (cleanContent s) = .ok .null →
      parse_ai_response jsonLoads s =
        unexpectedDict "argument of type 'NoneType' is not iterable" s) ∧
    (∀ t, jsonLoads (cleanContent s) = .ok (.str t) →
      expectedKeys.all (fun k => isSubstrOf k.data t.data) = true →
      parse_ai_response jsonLoads s = .str t) := by
  refine ⟨?_, ?_, ?_, ?_⟩
  · intro n h
    unfold parse_ai_response
    simp only [h]
    rfl
  · intro b h
    unfold parse_ai_response
    simp only [h]
    rfl
  · intro h
    unfold parse_ai_response
    simp only [h]
    rfl
  · intro t h hall
    unfold parse_ai_response
    simp only [h, fillLoop_str_all _ _ hall]

/-- C9 witness: the JSON text `5` decodes to a number and produces the
"Unexpected error" record. -/
theorem C9_non_object_witness :
    parse_ai_response jsonLoadsNum5 "5" =
      unexpectedDict "argument of type 'int' is not iterable" "5" :=
  (C9_non_object jsonLoadsNum5 "5").1 5 rfl

/-- C9 counterexample: a JSON string literal containing all five expected
key names as substrings decodes successfully to a non-object, and
`parse_ai_response` returns the decoded string itself — not the
failure-shaped record the claim requires. -/
theorem C9_non_object_counterexample :
    jsonLoadsStr (cleanContent ("\"" ++ strPayload ++ "\"")) = .ok (.str strPayload) ∧
    parse_ai_response jsonLoadsStr ("\"" ++ strPayload ++ "\"") = .str strPayload ∧
    isObj (.str strPayload) = false :=
  ⟨rfl, rfl, rfl⟩

/-- C2 (amended): wrapping a payload in either fenced-block style, with
optional surrounding whitespace, leaves the result of `parse_ai_response`
unchanged provided the unwrapped run takes the success path: the stripped
payload does not itself begin with a fence marker, it decodes successfully,
and the key-filling loop succeeds. (For the untagged style the payload must
also not begin with "json", or the wrap would be read as a JSON-tagged
fence.) -/
theorem C2_fence_equivalence (jsonLoads : String → Except String Json) (s : String)
    (w1 w2 : List Char) (j r : Json)
    (hw1 : w1.all pyIsSpace = true) (hw2 : w2.all pyIsSpace = true)
    (hdec : jsonLoads (pyStrip s) = .ok j)
    (hfill : fillLoop expectedKeys j = .ok r)
    (hnf : pyStartsWith (pyStrip s) "```" = false)
    (hnj : ("json".data).isPrefixOf (s.data ++ "```".data) = false) :
    parse_ai_response jsonLoads ⟨w1 ++ ("```json".data ++ s.data ++ "```".data) ++ w2⟩ = r ∧
    parse_ai_response jsonLoads ⟨w1 ++ ("```".data ++ s.data ++ "```".data) ++ w2⟩ = r ∧
    parse_ai_response jsonLoads s = r := by
  have htake : (s.data ++ "```".data).take ((s.data ++ "```".data).length - 3) = s.data := by
    have h1 : (s.data ++ "```".data).length - 3 = s.data.length := by
      simp [List.length_append]
    rw [h1]
    exact List.take_left s.data _
  refine ⟨?_, ?_, ?_⟩
  · -- JSON-tagged wrap
    have hmid : "```json".data ++ s.data ++ "```".data
        = fenceChar :: (("``json".data ++ s.data ++ "``".data) ++ [fenceChar]) := by
      rw [show "```json".data = fenceChar :: "``json".data by decide,
          show "```".data = "``".data ++ [fenceChar] by decide]
      simp [List.append_assoc]
    have hstrip :
        (pyStrip ⟨w1 ++ ("```json".data ++ s.data ++ "```".data) ++ w2⟩).data
          = "```json".data ++ s.data ++ "```".data := by
      have hd : (pyStrip ⟨w1 ++ ("```json".data ++ s.data ++ "```".data) ++ w2⟩).data
          = pyStripList (w1 ++ ("```json".data ++ s.data ++ "```".data) ++ w2) := rfl
      rw [hd, pyStripList_pad _ _ _ hw1 hw2, hmid,
          pyStripList_of_ends fenceChar fenceChar _ (by decide) (by decide), ← hmid]
    have hclean : cleanContent ⟨w1 ++ ("```json".data ++ s.data ++ "```".data) ++ w2⟩
        = pyStrip s := by
      rw [cleanContent_tagged _ (s.data ++ "```".data)
            (by rw [hstrip, List.append_assoc]),
          htake, stringEta]
    unfold parse_ai_response
    simp only [hclean, hdec, hfill]
  · -- untagged wrap
    have hmid : "```".data ++ s.data ++ "```".data
        = fenceChar :: (("``".data ++ s.data ++ "``".data) ++ [fenceChar]) := by
      have hsplit : "```".data = fenceChar :: "``".data := by decide
      have hsplit2 : "```".data = "``".data ++ [fenceChar] := by decide
      nth_rewrite 2 [hsplit2]
      rw [hsplit]
      simp [List.append_assoc]
    have hstrip :
        (pyStrip ⟨w1 ++ ("```".data ++ s.data ++ "```".data) ++ w2⟩).data
          = "```".data ++ s.data ++ "```".data := by
      have hd : (pyStrip ⟨w1 ++ ("```".data ++ s.data ++ "```".data) ++ w2⟩).data
          = pyStripList (w1 ++ ("```".data ++ s.data ++ "```".data) ++ w2) := rfl
      rw [hd, pyStripList_pad _ _ _ hw1 hw2, hmid,
          pyStripList_of_ends fenceChar fenceChar _ (by decide) (by decide), ← hmid]
    have hnp : pyStartsWith (pyStrip ⟨w1 ++ ("```".data ++ s.data ++ "```".data) ++ w2⟩)
        "```json" = false := by
      unfold pyStartsWith
      rw [hstrip, List.append_assoc,
          show "```json".data = "```".data ++ "json".data from rfl,
          isPrefixOf_append_cancel]
      exact hnj
    have hclean : cleanContent ⟨w1 ++ ("```".data ++ s.data ++ "```".data) ++ w2⟩
        = pyStrip s := by
      rw [cleanContent_untagged _ (s.data ++ "```".data)
            (by rw [hstrip, List.append_assoc]) hnp,
          htake, stringEta]
    unfold parse_ai_response
    simp only [hclean, hdec, hfill]
  · -- unwrapped
    have hnj7 : pyStartsWith (pyStrip s) "```json" = false := by
      unfold pyStartsWith at hnf ⊢
      cases hpf : ("```json".data).isPrefixOf (pyStrip s).data with
      | false => rfl
      | true =>
        rw [show "```json".data = "```".data ++ "json".data from rfl] at hpf
        rw [isPrefixOf_of_append _ _ _ hpf] at hnf
        exact absurd hnf (by simp)
    have hclean : cleanContent s = pyStrip s := by
      simp only [cleanContent]
      rw [hnj7, hnf]
      simp
    unfold parse_ai_response
    simp only [hclean, hdec, hfill]

/-- C2 witness: the object text of an empty JSON object, wrapped in either
fence style with surrounding whitespace, normalizes exactly as the
unwrapped text does. -/
theorem C2_fence_equivalence_witness :
    parse_ai_response jsonLoadsObjEmpty
        ⟨[' '] ++ ("```json".data ++ "\x7b\x7d".data ++ "```".data) ++ ['\n']⟩ =
      .obj emptyFields ∧
    parse_ai_response jsonLoadsObjEmpty
        ⟨[' '] ++ ("```".data ++ "\x7b\x7d".data ++ "```".data) ++ ['\n']⟩ =
      .obj emptyFields ∧
    parse_ai_response jsonLoadsObjEmpty "\x7b\x7d" = .obj emptyFields :=
  C2_fence_equivalence jsonLoadsObjEmpty "\x7b\x7d" [' '] ['\n'] (.obj [])
    (.obj emptyFields) rfl rfl rfl rfl rfl rfl

/-- C2 counterexample: for the payload `"x"`, which is not valid JSON, the
wrapped and unwrapped runs return different records — the `raw` diagnostic
field holds the wrapped original in one and the bare payload in the other —
so the claim is false for inputs whose payload fails to decode. -/
theorem C2_fence_equivalence_counterexample :
    rawOf (parse_ai_response jsonLoadsFail "```jsonx```") = some "```jsonx```" ∧
    rawOf (parse_ai_response jsonLoadsFail "x") = some "x" ∧
    ("```jsonx```" : String) ≠ "x" :=
  ⟨rfl, rfl, by decide⟩

/-- C10: when the trimmed input begins with a fence marker — "```json" with
payload `t`, or "```" (and not "```json") with payload `u` — the content
handed to the decoder is the payload with its final three characters
removed and then stripped, unconditionally: no closing fence is required,
and `List.take (length - 3)` discards the last three characters of the
payload whatever they are. -/
theorem C10_unconditional_cut (s : String) :
    (∀ t : List Char, (pyStrip s).data = "```json".data ++ t →
      cleanContent s = pyStrip ⟨t.take (t.length - 3)⟩) ∧
    (∀ u : List Char, (pyStrip s).data = "```".data ++ u →
      pyStartsWith (pyStrip s) "```json" = false →
      cleanContent s = pyStrip ⟨u.take (u.length - 3)⟩) :=
  ⟨fun t ht => cleanContent_tagged s t ht,
   fun u hu hn => cleanContent_untagged s u hu hn⟩

/-- C10 witness: `"```json[1,2,3]"` has no closing fence, yet the last three
characters `,3]` of the payload are discarded and the decoder receives
`[1,2`. -/
theorem C10_unconditional_cut_witness :
    cleanContent "```json[1,2,3]" = "[1,2" :=
  (C10_unconditional_cut "```json[1,2,3]").1 ("[1,2,3]".data) rfl

/-! ### Claims about the Review Orchestrator -/

/-- C6: for empty or whitespace-only submitted code, `home` makes no call to
the external client and returns the empty-input context: the user-facing
message is set and `ai_result` stays null. -/
theorem C6_empty_input (code : String) (hasKey hasClient : Bool)
    (call : Except String String) (jsonLoads : String → Except String Json)
    (h : pyStrip code = "") :
    home code hasKey hasClient call jsonLoads =
      (⟨"", none, some (.str emptyInputMsg), none⟩, false) := by
  simp only [home]
  rw [h]
  simp

/-- C6 witness: a whitespace-only submission. -/
theorem C6_empty_input_witness :
    home "   " true true (.ok "x") jsonLoadsFail =
      (⟨"", none, some (.str emptyInputMsg), none⟩, false) :=
  C6_empty_input "   " true true (.ok "x") jsonLoadsFail rfl

/-- C7: for non-empty code with the API not configured (missing key or
unavailable client), `home` makes no call to the external client and
returns the misconfigured context; and the empty-input state takes priority
over it — with the same arguments, empty input yields the empty-input
context regardless of the configuration flags and of the would-be call
outcome. -/
theorem C7_misconfigured (code : String) (hasKey hasClient : Bool)
    (call : Except String String) (jsonLoads : String → Except String Json) :
    (pyStrip code ≠ "" → (hasKey = false ∨ hasClient = false) →
      home code hasKey hasClient call jsonLoads =
        (⟨pyStrip code, none, some (.str misconfiguredMsg), none⟩, false)) ∧
    (pyStrip code = "" →
      home code hasKey hasClient call jsonLoads =
        (⟨"", none, some (.str emptyInputMsg), none⟩, false)) := by
  constructor
  · intro h1 h2
    simp only [home]
    rw [if_neg h1]
    have hb : (!hasKey || !hasClient) = true := by
      rcases h2 with h | h <;> simp [h]
    rw [hb]
    simp
  · intro h
    simp only [home]
    rw [h]
    simp

/-- C7 witness: non-empty code with a missing API key. -/
theorem C7_misconfigured_witness :
    home "x" false true (.ok "y") jsonLoadsFail =
      (⟨"x", none, some (.str misconfiguredMsg), none⟩, false) :=
  (C7_misconfigured "x" false true (.ok "y") jsonLoadsFail).1 (by decide) (Or.inl rfl)

/-- C8: whenever the external client invocation fails with any exception
text `e`, `home` returns a context whose top-level error embeds the failure
description, whose debug field carries the diagnostic trace, and whose
`ai_result` is the fallback record with `error` set and all five content
fields at their typed empty defaults; the failure is absorbed, not
propagated. -/
theorem C8_transport_failure (code : String) (e : String)
    (jsonLoads : String → Except String Json) (h : pyStrip code ≠ "") :
    home code true true (.error e) jsonLoads =
      (⟨pyStrip code, some (fallbackDict e), some (.str ("❌ API Error: " ++ e)),
        some (traceback_format_exc e)⟩, true) ∧
    isSubstrOf e.data ("❌ API Error: " ++ e).data = true ∧
    fallbackDict e = .obj (("error", .str ("API Error: " ++ e)) ::
      ("raw", .str "Unable to get AI response.") :: emptyFields) ∧
    fieldsPresentTyped (fallbackDict e) = true := by
  refine ⟨?_, ?_, rfl, rfl⟩
  · simp only [home]
    rw [if_neg h]
    simp
  · rw [String.data_append]
    exact isSubstrOf_append_left _ _

/-- C8 witness: a concrete transport failure. -/
theorem C8_transport_failure_witness :
    home "x" true true (.error "boom") jsonLoadsFail =
      (⟨"x", some (fallbackDict "boom"), some (.str ("❌ API Error: " ++ "boom")),
        some (traceback_format_exc "boom")⟩, true) :=
  (C8_transport_failure "x" "boom" jsonLoadsFail (by decide)).1
